import Mathlib

/-
Verification development for the ai-launchpad repository.

The repository is a collection of standalone agent scripts.  The claims under
study concern:
  * the interactive agent loop of
    ai_launchpad/agents_module/agent_from_scratch/6_agent.py (and its close
    variant ai_launchpad/agents_module/agent_with_mcp/main.py),
  * the LangGraph workflow scripts
    langgraph/effective-agents/workflows/6_orchestrator-workers.py,
    langgraph/effective-agents/workflows/7_evaluator-optimizer.py,
    ai_launchpad/langgraph_module/effective_agents/workflows/4_routing.py, and
  * the LinkedIn-post agent
    ai_launchpad/langgraph_module/effective_agents/agents/8_agent.py.

Each Python source fragment is embedded shallowly: pure logic becomes a Lean
function, module-level mutable state (the memories dict, the message list)
becomes explicit state threading, external collaborators (the OpenAI client,
Tavily search, Chroma queries) become oracle function parameters, and Python
exceptions become an explicit error type returned through Except.
-/

namespace AiLaunchpad

namespace Agents

/-- Python exceptions that can arise in the agent loop of 6_agent.py:
a KeyError from the dispatch expression globals()[name], a ValueError raised by
the manage_memories handler, a TypeError from binding missing keyword
arguments, and an API/transport error raised by client.responses.create. -/
inductive PyError
  | keyError (name : String)
  | valueError (msg : String)
  | typeError (msg : String)
  | apiError (msg : String)
deriving DecidableEq, Repr

/-- The keyword arguments of a parsed tool call
(json.loads(item.arguments) in 6_agent.py), restricted to the parameter names
actually used by the registered tools of 6_agent.py: query, action, id,
content, gender, category, num_results.  A field is none when the key is
absent from the arguments object. -/
structure FnArgs where
  query : Option String := none
  action : Option String := none
  id : Option Int := none
  content : Option String := none
  gender : Option String := none
  category : Option String := none
  num_results : Option Int := none
deriving DecidableEq, Repr

/-- The global memories dict of 6_agent.py (int keys, values that may be
None since manage_memories stores content unchecked on create), as an
insertion-ordered association list, which is how a Python dict behaves. -/
def Memories := List (Int × Option String)
deriving DecidableEq, Repr

/-- Python dict membership test: id in memories. -/
def Memories.containsKey (m : Memories) (k : Int) : Bool :=
  (List.find? (fun p => p.1 = k) m).isSome

/-- Python dict assignment memories[id] = content: overwrite in place when the
key exists, otherwise append at the end (insertion order is preserved). -/
def Memories.setKey (m : Memories) (k : Int) (v : Option String) : Memories :=
  match m with
  | [] => [(k, v)]
  | (k₀, v₀) :: rest =>
    if k₀ = k then (k, v) :: rest else (k₀, v₀) :: Memories.setKey rest k v

/-- Python del memories[id]. -/
def Memories.eraseKey (m : Memories) (k : Int) : Memories :=
  List.filter (fun p => ¬ (p.1 = k)) m

/-- str(memories): a rendering of the dict used for the tool output string.
The exact text never matters for the claims; only that it is a pure function
of the dict. -/
def Memories.render (m : Memories) : String :=
  String.intercalate ", "
    (m.map (fun p => toString p.1 ++ ": " ++ (p.2.getD "None")))

/-- manage_memories from 6_agent.py lines 78-106, acting on the global
memories dict.  The action branches mirror the source: create assigns
unconditionally; update raises ValueError when the id is missing or the
content is None; delete raises ValueError when the id is missing; any other
action string falls through and returns the dict unchanged. -/
def manage_memories (memories : Memories) (action : String) (id : Int)
    (content : Option String) : Except PyError Memories :=
  if action = "create" then
    .ok (memories.setKey id content)
  else if action = "update" then
    if ¬ memories.containsKey id then
      .error (.valueError s!"Memory with id {id} does not exist.")
    else if content = none then
      .error (.valueError s!"Content cannot be None when updating memory with id {id}.")
    else
      .ok (memories.setKey id content)
  else if action = "delete" then
    if ¬ memories.containsKey id then
      .error (.valueError s!"Memory with id {id} does not exist.")
    else
      .ok (memories.eraseKey id)
  else
    .ok memories

/-- A tool handler as called by the loop: from parsed keyword arguments and
the current memories dict to either a raised exception or the str()-rendered
tool output together with the updated memories dict. -/
def Handler := FnArgs → Memories → Except PyError (String × Memories)

/-- An external search collaborator (Tavily web search, Chroma product or FAQ
query): an oracle from the call arguments to a result string or a raised
error.  The scripts treat these as black boxes. -/
def SearchOracle := FnArgs → Except PyError String

/-- search_web from 6_agent.py lines 35-47 as a handler: requires the query
keyword (Python would raise TypeError when it is missing) and defers to the
external search collaborator.  It does not touch memories. -/
def search_web_handler (web : SearchOracle) : Handler := fun args mem =>
  match args.query with
  | none => .error (.typeError "search_web() missing 1 required positional argument: query")
  | some _ =>
    match web args with
    | .error e => .error e
    | .ok out => .ok (out, mem)

/-- manage_memories as a handler: binds the required action and id keywords
(TypeError when missing, as Python would raise) and runs manage_memories; the
returned dict is also the tool output (the source returns memories). -/
def manage_memories_handler : Handler := fun args mem =>
  match args.action, args.id with
  | some a, some i =>
    match manage_memories mem a i args.content with
    | .error e => .error e
    | .ok m => .ok (m.render, m)
  | _, _ => .error (.typeError "manage_memories() missing required arguments")

/-- get_memories from 6_agent.py lines 108-114: returns the memories dict. -/
def get_memories_handler : Handler := fun _ mem => .ok (mem.render, mem)

/-- search_products from 6_agent.py lines 195-232 as a handler: requires the
query keyword and defers to the Chroma collection oracle. -/
def search_products_handler (products : SearchOracle) : Handler := fun args mem =>
  match args.query with
  | none => .error (.typeError "search_products() missing 1 required positional argument: query")
  | some _ =>
    match products args with
    | .error e => .error e
    | .ok out => .ok (out, mem)

/-- search_faq from 6_agent.py lines 234-262 as a handler: requires the query
keyword and defers to the Chroma collection oracle. -/
def search_faq_handler (faq : SearchOracle) : Handler := fun args mem =>
  match args.query with
  | none => .error (.typeError "search_faq() missing 1 required positional argument: query")
  | some _ =>
    match faq args with
    | .error e => .error e
    | .ok out => .ok (out, mem)

/-- The tool functions reachable by the dispatch expression
globals()[function_call.name] in 6_agent.py line 427: the five module-level
tool functions, keyed by their Python names.  The three search tools carry
their external collaborator as an oracle parameter. -/
def toolGlobals (web products faq : SearchOracle) : List (String × Handler) :=
  [("search_web", search_web_handler web),
   ("manage_memories", manage_memories_handler),
   ("get_memories", get_memories_handler),
   ("search_products", search_products_handler products),
   ("search_faq", search_faq_handler faq)]

/-- globals()[name]: look a name up in the module global namespace. -/
def lookupGlobal (g : List (String × Handler)) (name : String) : Option Handler :=
  (List.find? (fun p => p.1 = name) g).map (fun p => p.2)

/-- One dispatch of 6_agent.py line 427,
globals()[function_call.name](**function_call_arguments): a missing name
raises KeyError, and a raising handler propagates its exception, because the
source wraps the call in no try/except. -/
def dispatchCall (g : List (String × Handler)) (name : String) (args : FnArgs)
    (mem : Memories) : Except PyError (String × Memories) :=
  match lookupGlobal g name with
  | none => .error (.keyError name)
  | some h => h args mem

/-- An item of response.output returned by the model collaborator
(client.responses.create): either a ResponseFunctionToolCall (with call_id,
name and already-parsed arguments) or a ResponseOutputMessage (with its text).
The scripts only inspect these two item types. -/
inductive OutputItem
  | functionCall (callId name : String) (args : FnArgs)
  | outputMessage (text : String)
deriving DecidableEq, Repr

/-- An entry of the messages list of 6_agent.py.  The raw response items are
appended verbatim by messages += response.output (constructors functionCall
and responseMessage); the loop additionally appends dict entries: the user
input, the assistant copy of each output message, and the
function_call_output dict per tool call. -/
inductive Message
  | system (content : String)
  | user (content : String)
  | assistant (content : String)
  | functionCall (callId name : String) (args : FnArgs)
  | responseMessage (text : String)
  | functionCallOutput (callId output : String)
deriving DecidableEq, Repr

/-- messages += response.output appends every raw output item to the
conversation before the dispatch loop runs. -/
def rawMessage : OutputItem → Message
  | .functionCall id name args => .functionCall id name args
  | .outputMessage t => .responseMessage t

/-- The for item in response.output loop of 6_agent.py lines 420-448,
threading the messages list, the route_to_agent flag and the memories dict.
A ResponseFunctionToolCall is dispatched through globals(); on success a
function_call_output entry is appended and route_to_agent is set True; a
raised exception aborts the whole loop body (there is no try/except).  A
ResponseOutputMessage appends an assistant entry and sets route_to_agent
False. -/
def processOutput (g : List (String × Handler)) :
    List OutputItem → List Message → Bool → Memories →
    Except PyError (List Message × Bool × Memories)
  | [], msgs, route, mem => .ok (msgs, route, mem)
  | .functionCall id name args :: rest, msgs, _, mem =>
    match dispatchCall g name args mem with
    | .error e => .error e
    | .ok (out, mem') =>
      processOutput g rest (msgs ++ [.functionCallOutput id out]) true mem'
  | .outputMessage t :: rest, msgs, _, mem =>
    processOutput g rest (msgs ++ [.assistant t]) false mem

/-- One executor step of the loop body (6_agent.py lines 414-448): append the
raw response items, then run the dispatch loop over them. -/
def agentStep (g : List (String × Handler)) (output : List OutputItem)
    (msgs : List Message) (route : Bool) (mem : Memories) :
    Except PyError (List Message × Bool × Memories) :=
  processOutput g output (msgs ++ output.map rawMessage) route mem

/-- The model collaborator: from the invocation count and the messages list
to a response output or a transport/provider error.  The scripts call
client.responses.create directly, so a deterministic oracle of the call
context is the faithful abstraction. -/
def Model := Nat → List Message → Except PyError (List OutputItem)

/-- str.lower() on one character: ASCII upper-case letters are shifted to
lower case (the inputs the script compares against are plain ASCII). -/
def pyLowerChar (c : Char) : Char :=
  if c.toNat ≥ 65 ∧ c.toNat ≤ 90 then Char.ofNat (c.toNat + 32) else c

/-- user_input.lower(). -/
def pyLower (s : String) : String := ⟨s.data.map pyLowerChar⟩

/-- user_input.lower() in ["exit", "quit"]. -/
def isExitCommand (s : String) : Bool :=
  pyLower s = "exit" ∨ pyLower s = "quit"

/-- How a run of the while True loop of 6_agent.py lines 393-448 ends, with
the final value of the turn counter:
  * budgetExhausted: the turn counter reached recursion_limit and the loop
    printed the recursion-limit message and broke out (a normal exit path,
    distinct from an exception);
  * exitCommand: the user typed exit or quit;
  * awaitingInput: route_to_agent is False and the scripted inputs are
    exhausted, i.e. the Python process would now block inside input();
  * crashed: an uncaught Python exception escaped the loop and aborted the
    run. -/
inductive RunResult
  | budgetExhausted (msgs : List Message) (turn : Nat)
  | exitCommand (msgs : List Message) (turn : Nat)
  | awaitingInput (msgs : List Message) (turn : Nat)
  | crashed (e : PyError) (turn : Nat)
deriving DecidableEq, Repr

/-- The value of the turn counter when the run ended. -/
def RunResult.turnTaken : RunResult → Nat
  | .budgetExhausted _ t => t
  | .exitCommand _ t => t
  | .awaitingInput _ t => t
  | .crashed _ t => t

/-- Whether the run ended on the recursion-limit break. -/
def RunResult.isBudgetExhausted : RunResult → Bool
  | .budgetExhausted _ _ => true
  | _ => false

/-- Whether the run ended on an uncaught exception. -/
def RunResult.isCrashed : RunResult → Bool
  | .crashed _ _ => true
  | _ => false

/-- The while True loop of 6_agent.py lines 392-448 (identically structured
in agent_with_mcp/main.py lines 180-258): increment turn, break with the
recursion-limit message when turn has reached the limit, otherwise consume a
user input when route_to_agent is False (breaking on an exit command), invoke
the model once, and run the executor step; an error from the model call or
the dispatch loop is uncaught and crashes the run.  User inputs are scripted
as a list; an empty script where input() would block ends the run as
awaitingInput. -/
def agentLoop (g : List (String × Handler)) (model : Model) :
    List String → List Message → Bool → Memories → Nat → Nat → RunResult :=
  fun inputs msgs route mem turn limit =>
    if _h : limit ≤ turn + 1 then .budgetExhausted msgs (turn + 1)
    else
      match route, inputs with
      | false, [] => .awaitingInput msgs (turn + 1)
      | false, i :: rest =>
        if isExitCommand i then .exitCommand msgs (turn + 1)
        else
          match model (turn + 1) (msgs ++ [.user i]) with
          | .error e => .crashed e (turn + 1)
          | .ok output =>
            match agentStep g output (msgs ++ [.user i]) false mem with
            | .error e => .crashed e (turn + 1)
            | .ok (msgs', route', mem') =>
              agentLoop g model rest msgs' route' mem' (turn + 1) limit
      | true, inputs' =>
        match model (turn + 1) msgs with
        | .error e => .crashed e (turn + 1)
        | .ok output =>
          match agentStep g output msgs true mem with
          | .error e => .crashed e (turn + 1)
          | .ok (msgs', route', mem') =>
            agentLoop g model inputs' msgs' route' mem' (turn + 1) limit
termination_by _ _ _ _ turn limit => limit - turn
decreasing_by all_goals omega

/-- The call identifier of a function_call_output conversation entry (and of
nothing else). -/
def fcoId : Message → Option String
  | .functionCallOutput callId _ => some callId
  | _ => none

/-- The call identifier of a ResponseFunctionToolCall response item (and of
nothing else). -/
def fcId : OutputItem → Option String
  | .functionCall callId _ _ => some callId
  | _ => none

/-- The value route_to_agent holds after the for loop over response.output:
each ResponseFunctionToolCall sets it True, each ResponseOutputMessage sets
it False, so the last processed item decides, and an empty output leaves the
previous value. -/
def finalRoute : List OutputItem → Bool → Bool
  | [], route => route
  | .functionCall _ _ _ :: rest, _ => finalRoute rest true
  | .outputMessage _ :: rest, _ => finalRoute rest false

/-- A trivial external-search collaborator used for concrete runs. -/
def stubOracle : SearchOracle := fun _ => .ok ""

/-- The tool globals of 6_agent.py with trivial search collaborators, used
for concrete runs. -/
def demoGlobals : List (String × Handler) :=
  toolGlobals stubOracle stubOracle stubOracle

/-- A model stub that always requests the nonexistent tool does_not_exist. -/
def unknownToolModel : Model :=
  fun _ _ => .ok [.functionCall "call_1" "does_not_exist" {}]

/-- Arguments of a manage_memories call that updates a missing id: the
handler raises ValueError on these whenever id 2 is not in the dict. -/
def updateMissingArgs : FnArgs :=
  { action := some "update", id := some 2, content := some "summer colors" }

/-- A model stub that always requests the raising manage_memories update. -/
def badUpdateModel : Model :=
  fun _ _ => .ok [.functionCall "call_7" "manage_memories" updateMissingArgs]

/-- A model stub whose first invocation fails with a transport error and
whose later invocations all succeed: a single immediate retry against it
would succeed. -/
def flakyModel : Model :=
  fun n _ =>
    if n = 1 then .error (.apiError "connection error")
    else .ok [.outputMessage "hello"]

/-- A response output holding a tool call followed by an assistant text
message, as one model response may contain. -/
def demoToolThenText : List OutputItem :=
  [.functionCall "call_1" "get_memories" {}, .outputMessage "working on it"]

/-- A model stub answering the first invocation with a tool call followed by
assistant text, and later invocations with plain text. -/
def toolThenTextModel : Model :=
  fun n _ =>
    if n = 1 then .ok demoToolThenText
    else .ok [.outputMessage "done"]

/-- The conversation entries appended by one executor step that starts from
an empty conversation and processes demoToolThenText: the two raw response
items, then the function_call_output of the get_memories call (the empty
dict renders as the empty string), then the assistant copy of the text. -/
def demoStepMsgs : List Message :=
  [.functionCall "call_1" "get_memories" {}, .responseMessage "working on it",
   .functionCallOutput "call_1" "", .assistant "working on it"]

/-- The conversation after turn 1 of a run that feeds the user input hi to
toolThenTextModel. -/
def demoRunMsgs : List Message := .user "hi" :: demoStepMsgs

/-- The conversation entries appended by the dispatch loop alone (without the
raw items) when processing demoToolThenText from an empty base. -/
def demoAppendMsgs : List Message :=
  [.functionCallOutput "call_1" "", .assistant "working on it"]

/-- n_results=min(num_results, 3) passed to collection.query by
search_products (6_agent.py line 226). -/
def search_products_n_results (num_results : Int) : Int := min num_results 3

/-- n_results=min(num_results, 3) passed to collection.query by search_faq
(6_agent.py line 256). -/
def search_faq_n_results (num_results : Int) : Int := min num_results 3

end Agents

/-- The END sentinel of the graph-orchestration library (langgraph.graph.END,
the string constant marking graph termination). -/
def ENDmark : String := "__end__"

namespace Routing

/-- The Literal type of ContentChoice.content_type in 4_routing.py line 46.
The structured-output call validates the model response against this type, so
a successful response always carries one of the three values. -/
inductive ContentType
  | linkedin
  | instagram
  | blog
deriving DecidableEq, Repr

/-- The string value of the content_type field. -/
def ContentType.render : ContentType → String
  | .linkedin => "linkedin"
  | .instagram => "instagram"
  | .blog => "blog"

/-- The ContentChoice pydantic model of 4_routing.py lines 44-46. -/
structure ContentChoice where
  content_type : ContentType := .linkedin
deriving DecidableEq, Repr

/-- generate_content_router of 4_routing.py lines 55-69: invoke the
structured-output model and return its content_type field.  The model call is
external, so the router is a function of the validated response; both the
pydantic and the dict response branch of the source read the same field. -/
def generate_content_router (response : ContentChoice) : String :=
  response.content_type.render

/-- The declared target keys of the conditional edges attached to
generate_content_router (4_routing.py lines 202-210). -/
def contentEdgeTargets : List String := ["linkedin", "instagram", "blog"]

/-- The WorkflowState of 4_routing.py lines 34-37 (the messages list is
irrelevant to routing and omitted). -/
structure WorkflowState where
  content : Option String := none
  rewrite : Bool := false
deriving DecidableEq, Repr

/-- linkedin_router of 4_routing.py lines 148-151. -/
def linkedin_router (state : WorkflowState) : String :=
  if state.rewrite then "generate_linkedin" else ENDmark

/-- The declared target keys of the conditional edges attached to
linkedin_router (4_routing.py lines 213-220). -/
def linkedinEdgeTargets : List String := ["generate_linkedin", ENDmark]

end Routing

namespace EvalOpt

/-- The CodeReview pydantic model of 7_evaluator-optimizer.py lines 44-47. -/
structure CodeReview where
  is_valid : Bool
  feedback : Option String := none
deriving DecidableEq, Repr

/-- The WorkflowState of 7_evaluator-optimizer.py lines 49-52 (the messages
list only feeds the model oracles and is omitted from the routing state). -/
structure WorkflowState where
  code : Option String := none
  code_review : Option CodeReview := none
deriving DecidableEq, Repr

/-- evaluator_router of 7_evaluator-optimizer.py lines 117-121: route to END
when a review exists and is valid (a pydantic instance is always truthy, so
the Python condition state.code_review and state.code_review.is_valid tests
presence then the flag), otherwise back to generate_code. -/
def evaluator_router (state : WorkflowState) : String :=
  match state.code_review with
  | some review => if review.is_valid then ENDmark else "generate_code"
  | none => "generate_code"

/-- The declared target keys of the conditional edges attached to
evaluator_router (7_evaluator-optimizer.py lines 136-143). -/
def evaluatorEdgeTargets : List String := ["generate_code", ENDmark]

/-- The generate_code node (7_evaluator-optimizer.py lines 61-80): the model
oracle gen receives the invocation count and the whole state (the source
builds the prompt from state.messages, state.code and state.code_review, all
contained in the state) and the node stores the response as code. -/
def generate_code (gen : Nat → WorkflowState → String) (k : Nat)
    (s : WorkflowState) : WorkflowState :=
  { s with code := some (gen k s) }

/-- The evaluate_code node (7_evaluator-optimizer.py lines 92-115): the
structured-output oracle ev receives the invocation count and the state and
the node stores the validated CodeReview. -/
def evaluate_code (ev : Nat → WorkflowState → CodeReview) (k : Nat)
    (s : WorkflowState) : WorkflowState :=
  { s with code_review := some (ev k s) }

/-- The two nodes of the compiled graph (7_evaluator-optimizer.py lines
128-145); entry point is generate_code, generate_code has an unconditional
edge to evaluate_code, and evaluate_code routes through evaluator_router. -/
inductive Node
  | generate
  | evaluate
deriving DecidableEq, Repr

/-- How graph.invoke ends: reaching END normally (with the number of
generate_code executions), or raising GraphRecursionError when the superstep
count exceeds the configured recursion limit. -/
inductive Outcome
  | finished (generationTurns : Nat)
  | recursionLimit (generationTurns : Nat)
deriving DecidableEq, Repr

/-- Execution of the compiled evaluator-optimizer graph: one superstep runs
one node (this graph has no parallel branches); the library raises
GraphRecursionError once the remaining superstep budget is exhausted.  fuel
is the remaining budget, g and e count generate_code and evaluate_code
executions so far. -/
def eoRun (gen : Nat → WorkflowState → String)
    (ev : Nat → WorkflowState → CodeReview) :
    Nat → Node → WorkflowState → Nat → Nat → Outcome
  | 0, _, _, g, _ => .recursionLimit g
  | fuel + 1, .generate, s, g, e =>
    eoRun gen ev fuel .evaluate (generate_code gen (g + 1) s) (g + 1) e
  | fuel + 1, .evaluate, s, g, e =>
    let s' := evaluate_code ev (e + 1) s
    if evaluator_router s' = ENDmark then .finished g
    else eoRun gen ev fuel .generate s' g (e + 1)

/-- graph.invoke with the given recursion limit (the source passes
recursion_limit=15 at 7_evaluator-optimizer.py lines 152-157), starting at
the entry node with the default-initialized state. -/
def eoInvoke (gen : Nat → WorkflowState → String)
    (ev : Nat → WorkflowState → CodeReview) (recursionLimit : Nat) : Outcome :=
  eoRun gen ev recursionLimit .generate {} 0 0

/-- The evaluator stub of the spec scenario: is_valid=false on the first two
invocations, is_valid=true from the third on. -/
def evalTwoInvalidThenValid : Nat → WorkflowState → CodeReview :=
  fun e _ => if e ≤ 2 then ⟨false, some "revise"⟩ else ⟨true, none⟩

end EvalOpt

namespace Orchestrator

/-- The ResearchTask pydantic model of 6_orchestrator-workers.py lines 30-34. -/
structure ResearchTask where
  topic : String
  search_query : String
  task : String
deriving DecidableEq, Repr, Inhabited

/-- The CompletedTask pydantic model of 6_orchestrator-workers.py lines 40-43. -/
structure CompletedTask where
  task : ResearchTask
  report : String
deriving DecidableEq, Repr

/-- The WorkflowState of 6_orchestrator-workers.py lines 50-54; the
completed_tasks field carries the operator.add (list concatenation) reducer
annotation, so node writes to it are concatenated in write-application
order.  messages and final_report are irrelevant to the routing and ordering
claims and omitted. -/
structure WorkflowState where
  tasks : List ResearchTask := []
  completed_tasks : List CompletedTask := []
deriving DecidableEq, Repr

/-- A Send directive of the graph-orchestration library: target node name and
the task payload handed to the spawned branch. -/
structure Send where
  node : String
  task : ResearchTask
deriving DecidableEq, Repr

/-- researcher_router of 6_orchestrator-workers.py lines 127-132: when
state.tasks is truthy (nonempty) it returns one Send per task, in task order;
otherwise the function body falls through and Python returns None. -/
def researcher_router (state : WorkflowState) : Option (List Send) :=
  if ¬ state.tasks.isEmpty then
    some (state.tasks.map (fun t => ⟨"researcher", t⟩))
  else
    none

/-- The declared target list of the conditional edge attached to
researcher_router (6_orchestrator-workers.py lines 259-263). -/
def researcherEdgeTargets : List String := ["researcher"]

/-- The researcher worker node (6_orchestrator-workers.py lines 149-203): web
search, content extraction and the model call collapse into the report
oracle; the node writes the singleton completed_tasks update pairing its
input task with the report. -/
def researcher (reportFn : ResearchTask → String) (t : ResearchTask) :
    CompletedTask :=
  ⟨t, reportFn t⟩

/-- The parallel execution of the branches spawned by the Send directives:
branches complete in an arbitrary order (a list of originating task indices),
each producing its completed_tasks write tagged with the index of the task it
originated from.  An index out of range produces no branch. -/
def executeBranches (reportFn : ResearchTask → String)
    (tasks : List ResearchTask) (completionOrder : List Nat) :
    List (Nat × CompletedTask) :=
  completionOrder.filterMap
    (fun i => (tasks[i]?).map (fun t => (i, researcher reportFn t)))

/-- The write-application step of the graph-orchestration library superstep:
the writes of the tasks spawned in one superstep are applied in task order
(the order the Send directives were created), not completion order, and the
operator.add reducer concatenates them.  Modelled from the library interface
the repository relies on: within a superstep the runtime applies task writes
deterministically by task index. -/
def applyWritesInTaskOrder (n : Nat) (writes : List (Nat × CompletedTask)) :
    List CompletedTask :=
  (List.range n).filterMap
    (fun i => (List.find? (fun p => p.1 = i) writes).map (fun p => p.2))

/-- The whole fan-out/fan-in: spawn one branch per task, let them complete in
completionOrder, then accumulate the writes into completed_tasks in task
order; the result is the completed_tasks list the synthesizer node reads. -/
def fanOutFanIn (reportFn : ResearchTask → String)
    (tasks : List ResearchTask) (completionOrder : List Nat) :
    List CompletedTask :=
  applyWritesInTaskOrder tasks.length
    (executeBranches reportFn tasks completionOrder)

/-- A concrete research task for concrete evaluations. -/
def demoTask : ResearchTask :=
  { topic := "Market Growth Drivers",
    search_query := "vertical farming adoption drivers",
    task := "Research adoption drivers." }

/-- A second concrete research task for concrete evaluations. -/
def demoTask2 : ResearchTask :=
  { topic := "Economic Barriers",
    search_query := "vertical farming scaling barriers",
    task := "Identify economic challenges." }

/-- A workflow state holding two generated tasks. -/
def demoOWState : WorkflowState :=
  { tasks := [demoTask, demoTask2], completed_tasks := [] }

end Orchestrator

namespace Agent8

/-- The configuration of a TavilySearch client: the max_results and topic
constructor arguments. -/
structure TavilyConfig where
  max_results : Int
  topic : String
deriving DecidableEq, Repr

/-- The TavilySearch client constructed by search_web in 8_agent.py line 96:
TavilySearch(max_results=max(num_results, 3), topic="general"). -/
def search_web_tavily_config (num_results : Int) : TavilyConfig :=
  ⟨max num_results 3, "general"⟩

/-- agent_router of 8_agent.py lines 414-417: route to the tools node when
the last message carries tool calls (list truthiness), else END.  The router
is a function of the tool_calls list of the last message. -/
def agent_router (lastMessageToolCalls : List String) : String :=
  if ¬ lastMessageToolCalls.isEmpty then "tools" else ENDmark

/-- The declared target keys of the conditional edges attached to
agent_router (8_agent.py lines 427-434). -/
def agentEdgeTargets : List String := ["tools", ENDmark]

end Agent8

namespace Agents

/-- A run that ended on the recursion-limit break did not end on an uncaught
exception: the two terminal conditions are distinct constructors. -/
theorem budget_not_crashed (r : RunResult) (h : r.isBudgetExhausted = true) :
    r.isCrashed = false := by
  cases r <;> simp_all [RunResult.isBudgetExhausted, RunResult.isCrashed]

/-- Invariant of the while loop: starting strictly below the limit, the final
turn counter never exceeds the limit, and it equals the limit exactly on the
recursion-limit exit. -/
theorem agentLoop_turn_invariant (g : List (String × Handler)) (model : Model) :
    ∀ (k : Nat) (inputs : List String) (msgs : List Message) (route : Bool)
      (mem : Memories) (turn limit : Nat), turn < limit → limit - turn ≤ k →
      (agentLoop g model inputs msgs route mem turn limit).turnTaken ≤ limit ∧
      ((agentLoop g model inputs msgs route mem turn limit).isBudgetExhausted
          = true ↔
        (agentLoop g model inputs msgs route mem turn limit).turnTaken
          = limit) := by
  intro k
  induction k with
  | zero => intro inputs msgs route mem turn limit h1 h2; omega
  | succ k ih =>
    intro inputs msgs route mem turn limit h1 h2
    rw [agentLoop.eq_def]
    split
    · next hle =>
      simp only [RunResult.turnTaken, RunResult.isBudgetExhausted]
      constructor
      · omega
      · simp only [true_iff]; omega
    · next hgt =>
      split
      · simp only [RunResult.turnTaken, RunResult.isBudgetExhausted]
        constructor
        · omega
        · simp only [Bool.false_eq_true, false_iff]; omega
      · next i rest =>
        split
        · simp only [RunResult.turnTaken, RunResult.isBudgetExhausted]
          constructor
          · omega
          · simp only [Bool.false_eq_true, false_iff]; omega
        · split
          · simp only [RunResult.turnTaken, RunResult.isBudgetExhausted]
            constructor
            · omega
            · simp only [Bool.false_eq_true, false_iff]; omega
          · split
            · simp only [RunResult.turnTaken, RunResult.isBudgetExhausted]
              constructor
              · omega
              · simp only [Bool.false_eq_true, false_iff]; omega
            · exact ih _ _ _ _ (turn + 1) limit (by omega) (by omega)
      · split
        · simp only [RunResult.turnTaken, RunResult.isBudgetExhausted]
          constructor
          · omega
          · simp only [Bool.false_eq_true, false_iff]; omega
        · split
          · simp only [RunResult.turnTaken, RunResult.isBudgetExhausted]
            constructor
            · omega
            · simp only [Bool.false_eq_true, false_iff]; omega
          · exact ih _ _ _ _ (turn + 1) limit (by omega) (by omega)

/-- C1: for every run of the agent loop started at turn 0 with a positive
recursion limit, the turn counter never exceeds recursion_limit; the run ends
on the distinct recursion-limit break exactly when the counter reaches the
limit, and that terminal condition is never the crash terminal. -/
theorem agent_turn_budget (g : List (String × Handler)) (model : Model)
    (inputs : List String) (msgs : List Message) (mem : Memories) (limit : Nat)
    (hpos : 0 < limit) :
    (agentLoop g model inputs msgs false mem 0 limit).turnTaken ≤ limit ∧
    ((agentLoop g model inputs msgs false mem 0 limit).isBudgetExhausted
        = true ↔
      (agentLoop g model inputs msgs false mem 0 limit).turnTaken = limit) ∧
    ((agentLoop g model inputs msgs false mem 0 limit).isBudgetExhausted
        = true →
      (agentLoop g model inputs msgs false mem 0 limit).isCrashed = false) := by
  have h := agentLoop_turn_invariant g model limit inputs msgs false mem 0 limit
    hpos (by omega)
  exact ⟨h.1, h.2, fun hb => budget_not_crashed _ hb⟩

/-- C1 witness: the budget invariant instantiated on a concrete run. -/
theorem agent_turn_budget_witness :
    0 < 30 ∧
    ((agentLoop demoGlobals toolThenTextModel ["hi"] [] false [] 0 30).turnTaken
        ≤ 30 ∧
      ((agentLoop demoGlobals toolThenTextModel ["hi"] [] false [] 0
            30).isBudgetExhausted = true ↔
        (agentLoop demoGlobals toolThenTextModel ["hi"] [] false [] 0
            30).turnTaken = 30) ∧
      ((agentLoop demoGlobals toolThenTextModel ["hi"] [] false [] 0
            30).isBudgetExhausted = true →
        (agentLoop demoGlobals toolThenTextModel ["hi"] [] false [] 0
            30).isCrashed = false)) :=
  ⟨by decide,
    agent_turn_budget demoGlobals toolThenTextModel ["hi"] [] [] 30 (by decide)⟩

/-- C2 counterexample: a model response requesting the unregistered tool
does_not_exist makes the concrete run crash with an uncaught KeyError on its
first turn; no failure tool_result is appended and the run does not survive. -/
theorem unknown_tool_crash_cex :
    agentLoop demoGlobals unknownToolModel ["hi"] [] false [] 0 30 =
      .crashed (.keyError "does_not_exist") 1 := by
  rw [agentLoop.eq_def]
  simp [isExitCommand, pyLower, pyLowerChar, unknownToolModel, agentStep,
    processOutput, dispatchCall, lookupGlobal, demoGlobals, toolGlobals]

/-- C2 amended: whenever the model requests a tool whose name is not among
the module globals, the globals() lookup raises KeyError, the exception
propagates uncaught, and the run crashes on that turn instead of appending a
failure tool_result. -/
theorem unknown_tool_crashes_run (g : List (String × Handler)) (model : Model)
    (i : String) (inputs : List String) (msgs : List Message) (mem : Memories)
    (limit : Nat) (callId name : String) (args : FnArgs)
    (rest : List OutputItem)
    (hname : lookupGlobal g name = none) (hlimit : 1 < limit)
    (hexit : isExitCommand i = false)
    (hmodel : model 1 (msgs ++ [.user i]) =
      .ok (.functionCall callId name args :: rest)) :
    agentLoop g model (i :: inputs) msgs false mem 0 limit =
      .crashed (.keyError name) 1 := by
  rw [agentLoop.eq_def]
  rw [dif_neg (by omega)]
  simp [hexit, hmodel, agentStep, processOutput, dispatchCall, hname]

/-- C2 witness: the amended statement instantiated on a concrete run with a
different input script and limit than the counterexample. -/
theorem unknown_tool_crashes_run_witness :
    lookupGlobal demoGlobals "does_not_exist" = none ∧
    (1 : Nat) < 20 ∧
    isExitCommand "hello" = false ∧
    unknownToolModel 1 ([] ++ [.user "hello"]) =
      .ok (.functionCall "call_1" "does_not_exist" {} :: []) ∧
    agentLoop demoGlobals unknownToolModel ["hello"] [] false [] 0 20 =
      .crashed (.keyError "does_not_exist") 1 :=
  ⟨by rfl, by decide, by decide, by rfl,
    unknown_tool_crashes_run demoGlobals unknownToolModel "hello" [] [] [] 20
      "call_1" "does_not_exist" {} [] (by rfl) (by decide) (by decide) (by rfl)⟩

/-- C3 counterexample: the manage_memories handler raising ValueError (update
of a missing id) escapes the dispatch loop as an error, and the concrete run
aborts with that uncaught exception; no failure tool_result is appended. -/
theorem handler_exception_cex :
    processOutput demoGlobals
        [.functionCall "call_7" "manage_memories" updateMissingArgs] [] false []
      = .error (.valueError "Memory with id 2 does not exist.") ∧
    agentLoop demoGlobals badUpdateModel ["hi"] [] false [] 0 30 =
      .crashed (.valueError "Memory with id 2 does not exist.") 1 := by
  constructor
  · rfl
  · rw [agentLoop.eq_def]
    simp [badUpdateModel, isExitCommand, pyLower, pyLowerChar, agentStep,
      processOutput, dispatchCall, lookupGlobal, demoGlobals, toolGlobals,
      updateMissingArgs, manage_memories_handler, manage_memories,
      Memories.containsKey]
    rfl

/-- C3 amended: whenever a resolved tool handler raises, the exception
propagates out of the dispatch loop (there is no try/except around the
handler call), so the dispatch step fails instead of appending a failure
tool_result. -/
theorem handler_exception_propagates (g : List (String × Handler))
    (callId name : String) (args : FnArgs) (rest : List OutputItem)
    (msgs : List Message) (route : Bool) (mem : Memories) (h : Handler)
    (e : PyError)
    (hname : lookupGlobal g name = some h) (hraise : h args mem = .error e) :
    processOutput g (.functionCall callId name args :: rest) msgs route mem =
      .error e := by
  simp [processOutput, dispatchCall, hname, hraise]

/-- C3 witness: the amended statement instantiated on the raising
manage_memories update. -/
theorem handler_exception_propagates_witness :
    lookupGlobal demoGlobals "manage_memories" = some manage_memories_handler ∧
    manage_memories_handler updateMissingArgs [] =
      .error (.valueError "Memory with id 2 does not exist.") ∧
    processOutput demoGlobals
        (.functionCall "call_9" "manage_memories" updateMissingArgs :: [])
        [.user "hi"] false [] =
      .error (.valueError "Memory with id 2 does not exist.") :=
  ⟨by rfl, by rfl,
    handler_exception_propagates demoGlobals "call_9" "manage_memories"
      updateMissingArgs [] [.user "hi"] false [] manage_memories_handler
      (.valueError "Memory with id 2 does not exist.") (by rfl) (by rfl)⟩

/-- The dispatch loop only ever appends to the conversation, and the appended
entries contain exactly one function_call_output per tool call of the
response, carrying the calls identifiers in request order. -/
theorem processOutput_appends (g : List (String × Handler)) :
    ∀ (out : List OutputItem) (msgs : List Message) (route : Bool)
      (mem : Memories) (msgs' : List Message) (route' : Bool)
      (mem' : Memories),
      processOutput g out msgs route mem = .ok (msgs', route', mem') →
      ∃ app, msgs' = msgs ++ app ∧
        app.filterMap fcoId = out.filterMap fcId := by
  intro out
  induction out with
  | nil =>
    intro msgs route mem msgs' route' mem' h
    simp only [processOutput, Except.ok.injEq, Prod.mk.injEq] at h
    exact ⟨[], by simp [h.1.symm], by simp [fcId]⟩
  | cons item rest ih =>
    cases item with
    | functionCall callId name args =>
      intro msgs route mem msgs' route' mem' h
      simp only [processOutput] at h
      cases hd : dispatchCall g name args mem with
      | error e => rw [hd] at h; cases h
      | ok p =>
        obtain ⟨o, mem₂⟩ := p
        rw [hd] at h
        obtain ⟨app, happ, hids⟩ := ih _ _ _ _ _ _ h
        refine ⟨.functionCallOutput callId o :: app, ?_, ?_⟩
        · rw [happ]; simp
        · simp [List.filterMap_cons, fcoId, fcId, hids]
    | outputMessage t =>
      intro msgs route mem msgs' route' mem' h
      simp only [processOutput] at h
      obtain ⟨app, happ, hids⟩ := ih _ _ _ _ _ _ h
      refine ⟨.assistant t :: app, ?_, ?_⟩
      · rw [happ]; simp
      · simp [List.filterMap_cons, fcoId, fcId, hids]

/-- C4: when one executor step succeeds, the conversation afterwards is the
previous conversation, then the raw response items, then an appended batch
whose function_call_output entries carry exactly the call identifiers of the
tool calls of the response, in request order, one each; the whole batch is in
place when the step returns, hence before the loop can invoke the model
again. -/
theorem tool_results_match_calls (g : List (String × Handler))
    (out : List OutputItem) (msgs : List Message) (route : Bool)
    (mem : Memories) (msgs' : List Message) (route' : Bool) (mem' : Memories)
    (hstep : agentStep g out msgs route mem = .ok (msgs', route', mem')) :
    ∃ app, msgs' = msgs ++ out.map rawMessage ++ app ∧
      app.filterMap fcoId = out.filterMap fcId := by
  obtain ⟨app, happ, hids⟩ := processOutput_appends g out _ _ _ _ _ _ hstep
  exact ⟨app, happ, hids⟩

/-- C4 witness: the step property instantiated on a concrete response holding
one tool call and one text message. -/
theorem tool_results_match_calls_witness :
    agentStep demoGlobals demoToolThenText [] false [] =
      .ok (demoStepMsgs, false, []) ∧
    (∃ app, demoStepMsgs = [] ++ demoToolThenText.map rawMessage ++ app ∧
      app.filterMap fcoId = demoToolThenText.filterMap fcId) :=
  ⟨by rfl,
    tool_results_match_calls demoGlobals demoToolThenText [] false []
      demoStepMsgs false [] (by rfl)⟩

/-- On success the route flag left by the dispatch loop is decided by the
last processed item alone. -/
theorem processOutput_route (g : List (String × Handler)) :
    ∀ (out : List OutputItem) (msgs : List Message) (route : Bool)
      (mem : Memories) (msgs' : List Message) (route' : Bool)
      (mem' : Memories),
      processOutput g out msgs route mem = .ok (msgs', route', mem') →
      route' = finalRoute out route := by
  intro out
  induction out with
  | nil =>
    intro msgs route mem msgs' route' mem' h
    simp only [processOutput, Except.ok.injEq, Prod.mk.injEq] at h
    simp [finalRoute, h.2.1.symm]
  | cons item rest ih =>
    cases item with
    | functionCall callId name args =>
      intro msgs route mem msgs' route' mem' h
      simp only [processOutput] at h
      cases hd : dispatchCall g name args mem with
      | error e => rw [hd] at h; cases h
      | ok p =>
        obtain ⟨o, mem₂⟩ := p
        rw [hd] at h
        simpa [finalRoute] using ih _ _ _ _ _ _ h
    | outputMessage t =>
      intro msgs route mem msgs' route' mem' h
      simp only [processOutput] at h
      simpa [finalRoute] using ih _ _ _ _ _ _ h

/-- A response output ending in a text message always leaves the route flag
False, whatever tool calls preceded the text. -/
theorem finalRoute_ends_text (t : String) :
    ∀ (out : List OutputItem) (route : Bool),
      finalRoute (out ++ [.outputMessage t]) route = false := by
  intro out
  induction out with
  | nil => intro route; rfl
  | cons item rest ih =>
    intro route
    cases item with
    | functionCall callId name args => simpa [finalRoute] using ih true
    | outputMessage s => simpa [finalRoute] using ih false

/-- C9: the continuation decision of the loop is the type of the last
processed response item: a successful dispatch loop leaves route_to_agent
equal to finalRoute (last item decides, previous value when the output is
empty); an output whose last item is a text message forces route_to_agent
False even when tool calls precede it; consequently the concrete run whose
first response is a tool call followed by text appends the tool result yet
blocks for user input on the next turn. -/
theorem route_decided_by_last_item :
    (∀ (g : List (String × Handler)) (out : List OutputItem)
       (msgs : List Message) (route : Bool) (mem : Memories)
       (msgs' : List Message) (route' : Bool) (mem' : Memories),
       processOutput g out msgs route mem = .ok (msgs', route', mem') →
       route' = finalRoute out route) ∧
    (∀ (t : String) (out : List OutputItem) (route : Bool),
       finalRoute (out ++ [.outputMessage t]) route = false) ∧
    agentLoop demoGlobals toolThenTextModel ["hi"] [] false [] 0 30 =
      .awaitingInput demoRunMsgs 2 := by
  refine ⟨processOutput_route, finalRoute_ends_text, ?_⟩
  rw [agentLoop.eq_def]
  simp [toolThenTextModel, isExitCommand, pyLower, pyLowerChar, agentStep,
    processOutput, dispatchCall, lookupGlobal, demoGlobals, toolGlobals,
    get_memories_handler, demoToolThenText, Memories.render, rawMessage,
    String.intercalate]
  rw [agentLoop.eq_def]
  simp [demoRunMsgs, demoStepMsgs]

/-- C9 witness: the route property instantiated on the concrete tool-call
then text response. -/
theorem route_decided_by_last_item_witness :
    processOutput demoGlobals demoToolThenText [] false [] =
      .ok (demoAppendMsgs, false, []) ∧
    false = finalRoute demoToolThenText false :=
  ⟨by rfl,
    route_decided_by_last_item.1 demoGlobals demoToolThenText [] false []
      demoAppendMsgs false [] (by rfl)⟩

/-- C8 counterexample: against a model whose first invocation fails and whose
second invocation would succeed (so a single immediate retry would have
recovered), the concrete run crashes on the first failure: the loop performs
no retry at all. -/
theorem model_error_cex :
    flakyModel 2 [] = .ok [.outputMessage "hello"] ∧
    agentLoop demoGlobals flakyModel ["hi"] [] false [] 0 30 =
      .crashed (.apiError "connection error") 1 := by
  constructor
  · rfl
  · rw [agentLoop.eq_def]
    simp [flakyModel, isExitCommand, pyLower, pyLowerChar]

/-- C8 amended: a failing model invocation is not retried: the exception from
client.responses.create propagates uncaught and the run terminates as a
failure on the very turn of the first failed call. -/
theorem model_error_not_retried (g : List (String × Handler)) (model : Model)
    (i : String) (inputs : List String) (msgs : List Message) (mem : Memories)
    (limit : Nat) (e : PyError)
    (hlimit : 1 < limit) (hexit : isExitCommand i = false)
    (hmodel : model 1 (msgs ++ [.user i]) = .error e) :
    agentLoop g model (i :: inputs) msgs false mem 0 limit = .crashed e 1 := by
  rw [agentLoop.eq_def]
  rw [dif_neg (by omega)]
  simp [hexit, hmodel]

/-- C8 witness: the no-retry statement instantiated on the flaky model with a
different script and limit than the counterexample. -/
theorem model_error_not_retried_witness :
    (1 : Nat) < 25 ∧
    isExitCommand "hey" = false ∧
    flakyModel 1 ([] ++ [.user "hey"]) = .error (.apiError "connection error") ∧
    agentLoop demoGlobals flakyModel ["hey", "more"] [] false [] 0 25 =
      .crashed (.apiError "connection error") 1 :=
  ⟨by decide, by decide, by rfl,
    model_error_not_retried demoGlobals flakyModel "hey" ["more"] [] [] 25
      (.apiError "connection error") (by decide) (by decide) (by rfl)⟩

end Agents

/-- C5 counterexample: on a state whose task list is empty the conditional
edge router of the orchestrator graph returns None (the Python function body
falls through), a value that is neither a declared edge target nor END. -/
theorem researcher_router_none_on_empty :
    Orchestrator.researcher_router { tasks := [], completed_tasks := [] }
      = none := rfl

/-- C5 amended: every conditional edge router of the workflow scripts returns
a member of its declared edge target set or END, with one exception: the
orchestrator router returns Send directives, all targeting the declared
researcher node, when the task list is nonempty, and returns the undeclared
None when it is empty. -/
theorem routers_return_declared_targets :
    (∀ c : Routing.ContentChoice,
        Routing.generate_content_router c ∈ Routing.contentEdgeTargets) ∧
    (∀ s : Routing.WorkflowState,
        Routing.linkedin_router s ∈ Routing.linkedinEdgeTargets) ∧
    (∀ s : EvalOpt.WorkflowState,
        EvalOpt.evaluator_router s ∈ EvalOpt.evaluatorEdgeTargets) ∧
    (∀ tc : List String,
        Agent8.agent_router tc ∈ Agent8.agentEdgeTargets) ∧
    (∀ s : Orchestrator.WorkflowState, s.tasks.isEmpty = false →
        ∃ sends, Orchestrator.researcher_router s = some sends ∧
          ∀ sd ∈ sends, sd.node ∈ Orchestrator.researcherEdgeTargets) := by
  refine ⟨?_, ?_, ?_, ?_, ?_⟩
  · intro c
    cases h : c.content_type <;>
      simp [Routing.generate_content_router, Routing.ContentType.render, h,
        Routing.contentEdgeTargets]
  · intro s
    by_cases h : s.rewrite <;>
      simp [Routing.linkedin_router, h, Routing.linkedinEdgeTargets]
  · intro s
    cases h : s.code_review with
    | none => simp [EvalOpt.evaluator_router, h, EvalOpt.evaluatorEdgeTargets]
    | some review =>
      by_cases hv : review.is_valid <;>
        simp [EvalOpt.evaluator_router, h, hv, EvalOpt.evaluatorEdgeTargets]
  · intro tc
    by_cases h : tc.isEmpty <;>
      simp [Agent8.agent_router, h, Agent8.agentEdgeTargets]
  · intro s h
    refine ⟨s.tasks.map (fun t => ⟨"researcher", t⟩), ?_, ?_⟩
    · simp [Orchestrator.researcher_router, h]
    · intro sd hsd
      obtain ⟨t, _, ht⟩ := List.mem_map.1 hsd
      simp [← ht, Orchestrator.researcherEdgeTargets]

/-- C5 witness: the router property instantiated on a state with two tasks. -/
theorem routers_return_declared_targets_witness :
    Orchestrator.demoOWState.tasks.isEmpty = false ∧
    (∃ sends,
      Orchestrator.researcher_router Orchestrator.demoOWState = some sends ∧
        ∀ sd ∈ sends, sd.node ∈ Orchestrator.researcherEdgeTargets) :=
  ⟨by decide,
    routers_return_declared_targets.2.2.2.2 Orchestrator.demoOWState (by decide)⟩

namespace Orchestrator

/-- Among the branch writes of one superstep, the first (and only) write
tagged with task index i is the completed task of task i, whenever branch i
ran, whatever the completion order was. -/
theorem find_branch_write (reportFn : ResearchTask → String) :
    ∀ (order : List Nat) (tasks : List ResearchTask) (i : Nat)
      (hi : i < tasks.length), i ∈ order →
      List.find? (fun p => p.1 = i)
          (executeBranches reportFn tasks order) =
        some (i, researcher reportFn (tasks.get ⟨i, hi⟩)) := by
  intro order
  induction order with
  | nil => intro tasks i hi hmem; simp at hmem
  | cons j rest ih =>
    intro tasks i hi hmem
    simp only [executeBranches, List.filterMap_cons]
    cases hj : tasks[j]? with
    | none =>
      have hij : i ≠ j := by
        intro hij
        rw [← hij, List.getElem?_eq_getElem hi] at hj
        cases hj
      have hmem' : i ∈ rest := by
        rcases List.mem_cons.1 hmem with h | h
        · exact absurd h hij
        · exact h
      simpa [executeBranches] using ih tasks i hi hmem'
    | some t =>
      simp only [Option.map_some']
      by_cases hij : j = i
      · subst hij
        rw [List.getElem?_eq_getElem hi] at hj
        have ht : t = tasks.get ⟨j, hi⟩ := by
          injection hj with hj'
          exact hj'.symm
        rw [List.find?_cons_of_pos _ (by simp)]
        rw [ht]
      · rw [List.find?_cons_of_neg _ (by simp [hij])]
        have hmem' : i ∈ rest := by
          rcases List.mem_cons.1 hmem with h | h
          · exact absurd h (fun hh => hij hh.symm)
          · exact h
        simpa [executeBranches] using ih tasks i hi hmem'

/-- Folding an index-keyed option producer over the index range recovers the
map when the producer is defined at every index. -/
theorem filterMap_range_eq_map {α β : Type} (f : α → β) :
    ∀ (l : List α) (g : Nat → Option β),
      (∀ (i : Nat) (t : α), l[i]? = some t → g i = some (f t)) →
      (List.range l.length).filterMap g = l.map f := by
  intro l
  induction l with
  | nil => intro g hg; simp
  | cons a l ih =>
    intro g hg
    rw [List.length_cons, List.range_succ_eq_map, List.filterMap_cons]
    have h0 : g 0 = some (f a) := hg 0 a (by simp)
    rw [h0, List.filterMap_map]
    rw [ih (g ∘ Nat.succ) (fun i t h => hg (i + 1) t (by simpa using h))]
    simp

/-- C6: for every generated task list, any completion order of the parallel
researcher branches that is a permutation of the branch indices yields, after
the superstep applies the writes in task order through the operator.add
reducer, the completed_tasks list ordered by originating task index: it is
exactly the task list mapped through the researcher worker, independent of
the completion order. -/
theorem fanin_ordered_by_task_index (reportFn : ResearchTask → String)
    (tasks : List ResearchTask) (completionOrder : List Nat)
    (hperm : completionOrder.Perm (List.range tasks.length)) :
    fanOutFanIn reportFn tasks completionOrder =
      tasks.map (researcher reportFn) := by
  unfold fanOutFanIn applyWritesInTaskOrder
  apply filterMap_range_eq_map
  intro i t ht
  have hi : i < tasks.length := by
    by_contra hc
    rw [List.getElem?_eq_none (by omega)] at ht
    cases ht
  have hmem : i ∈ completionOrder := hperm.mem_iff.2 (List.mem_range.2 hi)
  rw [find_branch_write reportFn completionOrder tasks i hi hmem]
  have htt : tasks.get ⟨i, hi⟩ = t := by
    rw [List.getElem?_eq_getElem hi] at ht
    injection ht
  rw [htt]
  rfl

/-- C6 witness: the fan-in ordering instantiated on two tasks completing in
reversed order. -/
theorem fanin_ordered_witness :
    ([1, 0] : List Nat).Perm (List.range [demoTask, demoTask2].length) ∧
    fanOutFanIn (fun t => t.topic) [demoTask, demoTask2] [1, 0] =
      [demoTask, demoTask2].map (researcher (fun t => t.topic)) :=
  ⟨by decide,
    fanin_ordered_by_task_index (fun t => t.topic) [demoTask, demoTask2] [1, 0]
      (by decide)⟩

end Orchestrator

namespace EvalOpt

/-- C7: whatever code the generator produces, against the evaluator stub that
rejects twice and then accepts, the compiled graph with recursion limit 15
runs the generate_code node exactly 3 times and ends through the END route of
evaluator_router (the finished outcome), not through the recursion-limit
error. -/
theorem evaluator_optimizer_three_generations
    (gen : Nat → WorkflowState → String) :
    eoInvoke gen evalTwoInvalidThenValid 15 = .finished 3 := rfl

/-- C7 witness: the scenario instantiated with a concrete generator stub. -/
theorem evaluator_optimizer_three_generations_witness :
    eoInvoke (fun _ _ => "print(1)") evalTwoInvalidThenValid 15 =
      .finished 3 :=
  evaluator_optimizer_three_generations (fun _ _ => "print(1)")

end EvalOpt

/-- C10: the search_web tool of the LinkedIn-post agent configures Tavily
with max_results = max(num_results, 3): at least 3 results are always
requested and requests above 3 pass through uncapped, despite the docstring
cap of 3; the search_products and search_faq tools of the customer-service
agent clamp with min(num_results, 3) instead. -/
theorem search_web_floor_not_cap :
    ∀ n : Int,
      3 ≤ (Agent8.search_web_tavily_config n).max_results ∧
      (3 < n → (Agent8.search_web_tavily_config n).max_results = n) ∧
      Agents.search_products_n_results n ≤ 3 ∧
      Agents.search_faq_n_results n ≤ 3 ∧
      (3 < n → Agents.search_products_n_results n = 3 ∧
        Agents.search_faq_n_results n = 3) := by
  intro n
  refine ⟨?_, ?_, ?_, ?_, ?_⟩ <;>
    simp [Agent8.search_web_tavily_config, Agents.search_products_n_results,
      Agents.search_faq_n_results] <;>
    omega

/-- C10 witness: a request for 10 results reaches Tavily uncapped from
search_web and clamped to 3 from search_products and search_faq. -/
theorem search_web_floor_not_cap_witness :
    (3 : Int) < 10 ∧
    (Agent8.search_web_tavily_config 10).max_results = 10 ∧
    Agents.search_products_n_results 10 = 3 ∧
    Agents.search_faq_n_results 10 = 3 :=
  ⟨by decide, (search_web_floor_not_cap 10).2.1 (by decide),
    ((search_web_floor_not_cap 10).2.2.2.2 (by decide)).1,
    ((search_web_floor_not_cap 10).2.2.2.2 (by decide)).2⟩

end AiLaunchpad
